import Mathlib

/-!
Verification development for the Localdemy video-library application.

This file gives a shallow embedding of the application's subtitle engine
(`video_player.py`: subtitle path resolution, SRT/WebVTT cue handling,
subtitle-file validation) and of the library tree builder (`window.py`:
folder scan and display-row construction), together with theorems settling
the specification claims about them.

Python strings are modelled as Lean `String` (a list of characters), with
the Python string primitives (`split`, `replace`, `strip`, `lower`,
substring test, `startswith`) re-implemented over character lists so that
they mirror CPython's semantics and evaluate inside the kernel.  Python
floats are modelled as exact rationals in an unnormalized
numerator/denominator representation (`PyRat`); the inputs exercised here
stay far below any magnitude where float rounding could reorder
comparisons.  Fallible Python code (raising `ValueError` from `int`/`float`
conversion) is modelled with `Option`.
-/

namespace Localdemy

/-! ### Python string primitives over character lists -/

/-- Characters CPython's `str.strip()` removes (ASCII whitespace). -/
def pyWhitespaceChar (c : Char) : Bool :=
  c == ' ' || c == '\t' || c == '\n' || c == '\r' || c == Char.ofNat 11 || c == Char.ofNat 12

/-- Python `str.strip()` on a character list: drop whitespace from both ends. -/
def stripList (l : List Char) : List Char :=
  ((l.dropWhile pyWhitespaceChar).reverse.dropWhile pyWhitespaceChar).reverse

/-- Worker for `str.split(sep)` (non-empty `sep`): scan left to right,
cutting at each non-overlapping occurrence of `sep`.  `acc` holds the
current fragment reversed.  The `fuel` argument (an upper bound on the
list length, consumed once per character) makes the recursion structural
so that the kernel can evaluate it; each call site passes the length. -/
def splitListAux (sep : List Char) : Nat → List Char → List Char → List (List Char)
  | _, [], acc => [acc.reverse]
  | 0, l, acc => [acc.reverse ++ l]
  | fuel + 1, c :: rest, acc =>
    if sep.isPrefixOf (c :: rest) then
      acc.reverse :: splitListAux sep fuel (rest.drop (sep.length - 1)) []
    else
      splitListAux sep fuel rest (c :: acc)

/-- Python `str.split(sep)` on character lists. -/
def splitList (sep l : List Char) : List (List Char) := splitListAux sep l.length l []

/-- Python's `pat in s` substring test on character lists. -/
def containsList (pat : List Char) : List Char → Bool
  | [] => pat.isEmpty
  | c :: rest => pat.isPrefixOf (c :: rest) || containsList pat rest

/-- Worker for `str.replace(pat, repl)` (non-empty `pat`): replace every
non-overlapping occurrence, scanning left to right.  `fuel` as in
`splitListAux`. -/
def replaceListAux (pat repl : List Char) : Nat → List Char → List Char
  | _, [] => []
  | 0, l => l
  | fuel + 1, c :: rest =>
    if !pat.isEmpty && pat.isPrefixOf (c :: rest) then
      repl ++ replaceListAux pat repl fuel (rest.drop (pat.length - 1))
    else
      c :: replaceListAux pat repl fuel rest

/-- Python `str.replace(pat, repl)` on character lists. -/
def replaceList (pat repl l : List Char) : List Char := replaceListAux pat repl l.length l

/-- Python `str.lower()` (ASCII case folding suffices for the paths involved). -/
def lowerList (l : List Char) : List Char := l.map Char.toLower

/-- Python's lexicographic string `<=`, comparing code points. -/
def charListLe : List Char → List Char → Bool
  | [], _ => true
  | _ :: _, [] => false
  | a :: as, b :: bs =>
    if a.toNat = b.toNat then charListLe as bs else decide (a.toNat < b.toNat)

/-! String-typed wrappers. -/

def pyStrip (s : String) : String := ⟨stripList s.data⟩

def pySplit (s sep : String) : List String := (splitList sep.data s.data).map fun l => ⟨l⟩

def pyReplace (s pat repl : String) : String := ⟨replaceList pat.data repl.data s.data⟩

/-- Python's `pat in s`. -/
def pyContains (pat s : String) : Bool := containsList pat.data s.data

def pyStartswith (s p : String) : Bool := p.data.isPrefixOf s.data

def pyLower (s : String) : String := ⟨lowerList s.data⟩

/-- Python string `<=` as a relation (used by `sorted`). -/
def pyStrLe (a b : String) : Prop := charListLe a.data b.data = true

instance : DecidableRel pyStrLe := fun a b => instDecidableEqBool _ _

theorem stringMkData (s : String) : (⟨s.data⟩ : String) = s := by cases s; rfl

/-! ### POSIX path helpers (`os.path`) -/

/-- Python `os.path.basename`: everything after the last `/`. -/
def pyBasename (p : String) : String :=
  ⟨(p.data.reverse.takeWhile (fun c => c ≠ '/')).reverse⟩

/-- Python `os.path.dirname`: everything before the last `/`, with trailing
slashes stripped unless the result is all slashes. -/
def pyDirname (p : String) : String :=
  let head := (p.data.reverse.dropWhile (fun c => c ≠ '/')).reverse
  if head.isEmpty || head.all (fun c => c = '/') then ⟨head⟩
  else ⟨(head.reverse.dropWhile (fun c => c = '/')).reverse⟩

/-- Python `os.path.join` for exactly two POSIX components. -/
def pyJoin (a b : String) : String :=
  if pyStartswith b "/" then b
  else if a = "" || a.data.getLast? = some '/' then a ++ b
  else a ++ "/" ++ b

/-- Python `os.path.splitext`: split at the last dot of the basename, unless every
character of the basename before that dot is itself a dot. -/
def pySplitext (p : String) : String × String :=
  let l := p.data
  let rb := l.reverse.takeWhile (fun c => c ≠ '/')
  let rAfter := rb.takeWhile (fun c => c ≠ '.')
  match rb.drop rAfter.length with
  | '.' :: rPre =>
    if rPre.any (fun c => c ≠ '.') then
      (⟨l.take (l.length - (rAfter.length + 1))⟩, ⟨'.' :: rAfter.reverse⟩)
    else (p, "")
  | _ => (p, "")

/-! ### Numeric conversions -/

/-- Value of a decimal digit string (caller checks the digits). -/
def natOfDigits (l : List Char) : Nat := l.foldl (fun a c => 10 * a + (c.toNat - 48)) 0

/-- Python `int(s)`: optional surrounding whitespace, optional sign,
then decimal digits; `none` models a raised `ValueError`. -/
def pyInt? (s : String) : Option Int :=
  match stripList s.data with
  | '-' :: rest =>
    if !rest.isEmpty && rest.all Char.isDigit then some (-(natOfDigits rest : Int)) else none
  | '+' :: rest =>
    if !rest.isEmpty && rest.all Char.isDigit then some (natOfDigits rest : Int) else none
  | rest =>
    if !rest.isEmpty && rest.all Char.isDigit then some (natOfDigits rest : Int) else none

/-- Exact rational in unnormalized numerator/denominator form, standing in
for a CPython float value. -/
structure PyRat where
  num : Int
  den : Nat
  den_pos : 0 < den

instance : DecidableEq PyRat := fun a b =>
  if h : a.num = b.num ∧ a.den = b.den then
    isTrue (by cases a; cases b; simp_all)
  else
    isFalse (by intro e; cases e; simp at h)

instance : LE PyRat := ⟨fun a b => a.num * (b.den : Int) ≤ b.num * (a.den : Int)⟩

instance : DecidableRel (α := PyRat) (· ≤ ·) := fun a b =>
  inferInstanceAs (Decidable (a.num * (b.den : Int) ≤ b.num * (a.den : Int)))

theorem PyRat.le_def (a b : PyRat) : a ≤ b ↔ a.num * (b.den : Int) ≤ b.num * (a.den : Int) :=
  Iff.rfl

theorem PyRat.le_total (a b : PyRat) : a ≤ b ∨ b ≤ a :=
  Int.le_total _ _

theorem PyRat.le_trans {a b c : PyRat} (h1 : a ≤ b) (h2 : b ≤ c) : a ≤ c := by
  rw [PyRat.le_def] at h1 h2 ⊢
  have hb : (0 : Int) < (b.den : Int) := by exact_mod_cast b.den_pos
  have ha : (0 : Int) ≤ (a.den : Int) := Int.ofNat_nonneg _
  have hc : (0 : Int) ≤ (c.den : Int) := Int.ofNat_nonneg _
  have h3 : a.num * (c.den : Int) * (b.den : Int) ≤ c.num * (a.den : Int) * (b.den : Int) := by
    nlinarith [mul_le_mul_of_nonneg_right h1 hc, mul_le_mul_of_nonneg_right h2 ha]
  exact le_of_mul_le_mul_right h3 hb

/-- The integer `q` as a `PyRat`. -/
def PyRat.ofInt (q : Int) : PyRat := ⟨q, 1, Nat.one_pos⟩

/-- Python `float(s)` restricted to plain decimal notation (optional sign,
digits with an optional fractional part); `none` models `ValueError`. -/
def pyFloat? (s : String) : Option PyRat :=
  let l := stripList s.data
  let sgn : Int := match l with
    | '-' :: _ => -1
    | _ => 1
  let l2 : List Char := match l with
    | '-' :: r => r
    | '+' :: r => r
    | r => r
  match splitList ['.'] l2 with
  | [ip] =>
    if !ip.isEmpty && ip.all Char.isDigit then some ⟨sgn * (natOfDigits ip : Int), 1, Nat.one_pos⟩
    else none
  | [ip, fp] =>
    if (!ip.isEmpty || !fp.isEmpty) && ip.all Char.isDigit && fp.all Char.isDigit then
      some ⟨sgn * ((natOfDigits ip : Int) * (10 ^ fp.length : Nat) + (natOfDigits fp : Int)),
            10 ^ fp.length, Nat.pos_pow_of_pos _ (by omega)⟩
    else none
  | _ => none

/-! ### Cues and the SRT parser (`video_player.py`, class `SRTParser`) -/

/-- One timed subtitle entry, as stored in a parser's `subtitles` list. -/
structure Cue where
  start_ms : PyRat
  end_ms : PyRat
  text : String
deriving DecidableEq

/-- Source `SRTParser.time_to_ms`: convert `HH:MM:SS,mmm` (comma replaced by a
dot, colon-separated) to milliseconds.  A token without exactly three
colon-separated fields yields `0`; a failing `int`/`float` conversion
raises, modelled as `none`. -/
def SRTParser.time_to_ms (time_str : String) : Option PyRat :=
  let parts := pySplit (pyReplace time_str "," ".") ":"
  if parts.length ≠ 3 then some (PyRat.ofInt 0)
  else
    match pyInt? (parts.getD 0 ""), pyInt? (parts.getD 1 ""), pyFloat? (parts.getD 2 "") with
    | some hours, some minutes, some seconds =>
      some ⟨((hours * 3600 + minutes * 60) * (seconds.den : Int) + seconds.num) * 1000,
            seconds.den, seconds.den_pos⟩
    | _, _, _ => none

/-- Body of the `for block in blocks` loop of `SRTParser.parse`: a block
with fewer than 3 lines (the non-matching shapes below), a second line
not splitting into exactly two pieces at `' --> '`, or a failing time
conversion produces no cue; otherwise lines 3+ joined with newlines give
the text. -/
def SRTParser.blockToCue? (block : String) : Option Cue :=
  match pySplit block "\n" with
  | _ :: timing :: text1 :: textRest =>
    match pySplit timing " --> " with
    | [t0, t1] =>
      match SRTParser.time_to_ms (pyStrip t0), SRTParser.time_to_ms (pyStrip t1) with
      | some start_time, some end_time =>
        some ⟨start_time, end_time, String.intercalate "\n" (text1 :: textRest)⟩
      | _, _ => none
    | _ => none
  | _ => none

/-- The ordering used by `subtitles.sort(key=lambda x: x['start'])`. -/
def cueStartLe (a b : Cue) : Prop := a.start_ms ≤ b.start_ms

instance : DecidableRel cueStartLe := fun a b =>
  inferInstanceAs (Decidable (a.start_ms ≤ b.start_ms))

instance : IsTotal Cue cueStartLe := ⟨fun a b => PyRat.le_total _ _⟩

instance : IsTrans Cue cueStartLe := ⟨fun _ _ _ h1 h2 => PyRat.le_trans h1 h2⟩

/-- CPython's `list.sort` is a stable sort; a stable insertion sort by the
same key computes the identical permutation. -/
def sortCues (l : List Cue) : List Cue := List.insertionSort cueStartLe l

/-- Source `SRTParser.parse`: empty content parses to nothing; otherwise strip,
normalize line endings, split into blank-line-separated blocks, convert
each block, and sort the cues by start time. -/
def SRTParser.parse (content : String) : List Cue :=
  if content = "" then []
  else
    sortCues ((pySplit (pyReplace (pyStrip content) "\r\n" "\n") "\n\n").filterMap
      SRTParser.blockToCue?)

/-- Source `SRTParser.format_subtitle_text`: escape `&`, `<`, `>`, then convert
the `{b}`/`{i}` SRT markers to Pango `<b>`/`<i>` tags. -/
def SRTParser.format_subtitle_text (text : String) : String :=
  let t := pyReplace text "&" "&amp;"
  let t := pyReplace t "<" "&lt;"
  let t := pyReplace t ">" "&gt;"
  let t := pyReplace t "\x7bb\x7d" "<b>"
  let t := pyReplace t "\x7b/b\x7d" "</b>"
  let t := pyReplace t "\x7bi\x7d" "<i>"
  let t := pyReplace t "\x7b/i\x7d" "</i>"
  t

/-- Source `SRTParser.get_subtitle_at_time`: linear scan for the first cue whose
inclusive interval contains the timestamp; its text is formatted for
display; no match yields `""`. -/
def SRTParser.get_subtitle_at_time : List Cue → PyRat → String
  | [], _ => ""
  | c :: rest, t =>
    if c.start_ms ≤ t ∧ t ≤ c.end_ms then SRTParser.format_subtitle_text c.text
    else SRTParser.get_subtitle_at_time rest t

/-! ### The WebVTT cue-display functions (`video_player.py`, class `VTTParser`) -/

/-- Source `VTTParser.format_subtitle_text`: escape `&`, `<`, `>`, then run the
whitelist loop, which replaces `<b>`, `</b>`, `<i>`, `</i>`, `<u>`,
`</u>`, `<c>`, `</c>` each by itself (the replacement string in the
source is identical to the pattern). -/
def VTTParser.format_subtitle_text (text : String) : String :=
  let t := pyReplace text "&" "&amp;"
  let t := pyReplace t "<" "&lt;"
  let t := pyReplace t ">" "&gt;"
  let t := pyReplace t "<b>" "<b>"
  let t := pyReplace t "</b>" "</b>"
  let t := pyReplace t "<i>" "<i>"
  let t := pyReplace t "</i>" "</i>"
  let t := pyReplace t "<u>" "<u>"
  let t := pyReplace t "</u>" "</u>"
  let t := pyReplace t "<c>" "<c>"
  let t := pyReplace t "</c>" "</c>"
  t

/-- Source `VTTParser.get_subtitle_at_time`: same linear scan as the SRT variant,
formatting with the WebVTT formatter. -/
def VTTParser.get_subtitle_at_time : List Cue → PyRat → String
  | [], _ => ""
  | c :: rest, t =>
    if c.start_ms ≤ t ∧ t ≤ c.end_ms then VTTParser.format_subtitle_text c.text
    else VTTParser.get_subtitle_at_time rest t

/-! ### Subtitle file validation (`VideoPlayer._validate_subtitle_file`) -/

/-- A candidate subtitle file as the validator sees it: whether the path
exists, the reported size (`none` models `os.path.getsize` raising, which
the source swallows), and the decoded text content. -/
structure SubtitleFileInfo where
  path : String
  pathExists : Bool
  size : Option Nat
  content : String

/-- The per-extension content checks of `_validate_subtitle_file`, applied
to the first 1000 characters read. -/
def subtitleContentCheck (ext content : String) : Bool :=
  if ext = ".srt" then
    pyContains "-->" content && decide ((pyStrip content).length > 10)
  else if ext = ".vtt" then
    if pyStartswith (pyStrip content) "WEBVTT" then true
    else pyContains "-->" content && decide ((pyStrip content).length > 10)
  else if ext = ".ssa" || ext = ".ass" then
    pyContains "[Script Info]" content ||
      (pyContains "[V4+ Styles]" content || pyContains "[Events]" content)
  else if ext = ".sub" then
    pyContains "-->" content || (pyContains "\x7b" content && pyContains "\x7d" content)
  else
    pyContains "-->" content && decide ((pyStrip content).length > 10)

/-- Source `VideoPlayer._validate_subtitle_file`: reject missing paths, unknown
extensions, empty files and files over 10 MB, then check content markers. -/
def validate_subtitle_file (f : SubtitleFileInfo) : Bool :=
  if !f.pathExists then false
  else
    let ext := pyLower (pySplitext f.path).2
    if !([".srt", ".vtt", ".sub", ".ssa", ".ass"].contains ext) then false
    else
      match f.size with
      | some size =>
        if size = 0 then false
        else if size > 10 * 1024 * 1024 then false
        else subtitleContentCheck ext ⟨f.content.data.take 1000⟩
      | none => subtitleContentCheck ext ⟨f.content.data.take 1000⟩

/-! ### Subtitle path resolution (`VideoPlayer.load_subtitles`) -/

/-- The filesystem snapshot the resolver queries: `os.path.exists`,
`os.path.isdir` and `os.listdir`. -/
structure FS where
  pathExists : String → Bool
  isdir : String → Bool
  listdir : String → List String

def subtitle_extensions : List String := [".srt", ".vtt", ".ass", ".ssa", ".sub"]

def language_codes : List String :=
  ["en", "eng", "english", "es", "spa", "spanish", "fr", "fre", "french",
   "de", "ger", "german", "it", "ita", "italian", "ru", "rus", "russian"]

/-- First existing path among the candidates (the `break` on first hit of
the nested pattern loops). -/
def firstExisting (fs : FS) (cands : List String) : Option String :=
  cands.find? fun p => fs.pathExists p

/-- Pattern 1: `{stem}.{lang}{ext}`, languages outer, extensions inner. -/
def pattern1 (fs : FS) (base_path : String) : Option String :=
  firstExisting fs (language_codes.flatMap fun lang =>
    subtitle_extensions.map fun ext => base_path ++ "." ++ lang ++ ext)

/-- Pattern 2: `{stem}_{lang}{ext}`. -/
def pattern2 (fs : FS) (base_path : String) : Option String :=
  firstExisting fs (language_codes.flatMap fun lang =>
    subtitle_extensions.map fun ext => base_path ++ "_" ++ lang ++ ext)

/-- Pattern 3: `{stem}-{lang}{ext}`. -/
def pattern3 (fs : FS) (base_path : String) : Option String :=
  firstExisting fs (language_codes.flatMap fun lang =>
    subtitle_extensions.map fun ext => base_path ++ "-" ++ lang ++ ext)

/-- Pattern 4: the generic sibling `{stem}{ext}`. -/
def pattern4 (fs : FS) (base_path : String) : Option String :=
  firstExisting fs (subtitle_extensions.map fun ext => base_path ++ ext)

/-- Pattern 5: scan `subtitles`/`subs`/`srt`/`subtitle`/`sub` directories
next to the video for a subtitle-extension file whose stem contains, is
contained in, or equals the video's stem (case-insensitive). -/
def pattern5 (fs : FS) (directory base_name : String) : Option String :=
  (["subtitles", "subs", "srt", "subtitle", "sub"].flatMap fun subdir =>
    let subs_dir := pyJoin directory subdir
    if fs.pathExists subs_dir && fs.isdir subs_dir then
      ((fs.listdir subs_dir).filter fun filename =>
        let file_base := (pySplitext filename).1
        let file_ext := (pySplitext filename).2
        subtitle_extensions.contains (pyLower file_ext) &&
          (pyContains (pyLower file_base) (pyLower base_name) ||
           pyContains (pyLower base_name) (pyLower file_base) ||
           pyLower file_base == pyLower base_name)).map
        fun filename => pyJoin subs_dir filename
    else []).head?

/-- Pattern 6: scan the parent of the video's directory for a
subtitle-extension file whose stem contains the video's stem. -/
def pattern6 (fs : FS) (directory base_name : String) : Option String :=
  let parent_dir := pyDirname directory
  if fs.pathExists parent_dir && fs.isdir parent_dir then
    (((fs.listdir parent_dir).filter fun filename =>
        subtitle_extensions.contains (pyLower (pySplitext filename).2) &&
          pyContains (pyLower base_name) (pyLower (pySplitext filename).1)).map
      fun filename => pyJoin parent_dir filename).head?
  else none

/-- The six pattern searches of `load_subtitles`, in source order, for a
given video path. -/
def patternList (fs : FS) (video_path : String) : List (Option String) :=
  let base_path := (pySplitext video_path).1
  let base_name := pyBasename base_path
  let directory := pyDirname video_path
  [pattern1 fs base_path, pattern2 fs base_path, pattern3 fs base_path,
   pattern4 fs base_path, pattern5 fs directory base_name, pattern6 fs directory base_name]

/-- The search phase of `load_subtitles`: each pattern runs only if all
earlier ones found nothing (`if not found_subtitle`). -/
def find_subtitle (fs : FS) (video_path : String) : Option String :=
  (patternList fs video_path).findSome? id

/-- Source `VideoPlayer.load_subtitles`, with GTK side effects dropped: returns
the boolean result and the updated `_last_subtitle_check` state.
`set_subtitle_ok` abstracts `set_subtitle_file`'s success. -/
def load_subtitles (fs : FS) (set_subtitle_ok : String → Bool)
    (last_subtitle_check : Option String) (video_path : String) : Bool × Option String :=
  if video_path = "" then (false, last_subtitle_check)
  else if last_subtitle_check = some video_path then (false, last_subtitle_check)
  else
    match find_subtitle fs video_path with
    | some found => (set_subtitle_ok found, some video_path)
    | none => (false, some video_path)

/-! ### Folder scan (`LocaldemyWindow.scan_folder_thread`) -/

def VIDEO_EXTENSIONS : List String :=
  [".mp4", ".mkv", ".avi", ".mov", ".wmv", ".flv", ".webm", ".m4v", ".mpg", ".mpeg", ".3gp"]

/-- Whether `f` has a recognized video extension
(`os.path.splitext(f)[1].lower() in VIDEO_EXTENSIONS`). -/
def hasVideoExt (f : String) : Bool := VIDEO_EXTENSIONS.contains (pyLower (pySplitext f).2)

/-- A directory tree as `os.walk` enumerates it: named subdirectories in
listing order plus the names of the plain files directly inside. -/
inductive DirTree where
  | node (subdirs : List (String × DirTree)) (files : List String)

mutual

/-- The video files collected by the `os.walk` loop of
`scan_folder_thread` rooted at `root`: the current directory's
video-extension files, then the non-hidden subdirectories in order
(`dirs[:] = [d for d in dirs if not d.startswith('.')]`). -/
def walkVideos (root : String) : DirTree → List String
  | .node subdirs files =>
    (files.filter hasVideoExt).map (fun f => pyJoin root f) ++ walkVideosList root subdirs

/-- Worker for `walkVideos` over a subdirectory listing. -/
def walkVideosList (root : String) : List (String × DirTree) → List String
  | [] => []
  | (name, sub) :: rest =>
    (if pyStartswith name "." then [] else walkVideos (pyJoin root name) sub) ++
      walkVideosList root rest

end

/-! ### Library row construction (`LocaldemyWindow.build_folder_model`) -/

/-- One row of the library list model (`library.py`, class `VideoItem`),
with the attributes `build_folder_model` sets on it. -/
structure VideoItem where
  video_id : String
  title : String
  subtitle : String
  duration : Nat
  progress : PyRat
  file_path : Option String
  is_folder : Bool
  folder_name : Option String
  indent_level : Nat
deriving DecidableEq

/-- The nested-dictionary folder structure built by the scan: subfolder
name to child structure (the non-`'_files'` keys, in insertion order) plus
the `'_files'` bucket of `(file_path, file_name)` pairs. -/
inductive FolderStructure where
  | node (subfolders : List (String × FolderStructure)) (files : List (String × String))

def FolderStructure.subfolders : FolderStructure → List (String × FolderStructure)
  | .node s _ => s

def FolderStructure.filesOf : FolderStructure → List (String × String)
  | .node _ f => f

/-- Dictionary lookup `folder_structure[folder_name]`. -/
def lookupFolder (name : String) (subs : List (String × FolderStructure)) : FolderStructure :=
  ((subs.find? fun p => p.1 == name).map Prod.snd).getD (.node [] [])

/-- Python `sorted(...)` on strings (CPython compares code points). -/
def sortStrings (l : List String) : List String := List.insertionSort pyStrLe l

/-- Python `sorted(files, key=lambda x: x[1].lower())`. -/
def fileNameLe (x y : String × String) : Prop :=
  charListLe (lowerList x.2.data) (lowerList y.2.data) = true

instance : DecidableRel fileNameLe := fun _ _ => instDecidableEqBool _ _

def sortFilesByName (l : List (String × String)) : List (String × String) :=
  List.insertionSort fileNameLe l

/-- Source `LocaldemyWindow.build_folder_model`, as the ordered row list it
appends to the fresh `Gio.ListStore`: one row per top-level subfolder
(alphabetical), then — only when the root has direct files — a synthetic
"Root Files" header row (only when subfolders also exist) followed by the
root's own files sorted case-insensitively.  `progress_data` maps a video
path to its stored percentage. -/
def build_folder_model (fsr : FolderStructure) (progress_data : String → Option PyRat) :
    List VideoItem :=
  match fsr with
  | .node subs files =>
    let folder_names := sortStrings (subs.map Prod.fst)
    let folderRows := folder_names.map fun name =>
      let subfolder := lookupFolder name subs
      { video_id := "folder_" ++ name
        title := "📁 " ++ name
        subtitle := toString subfolder.filesOf.length ++ " videos"
        duration := 0
        progress := PyRat.ofInt 0
        file_path := none
        is_folder := true
        folder_name := some name
        indent_level := 0 : VideoItem }
    if files.isEmpty then folderRows
    else
      let root_files := sortFilesByName files
      let withHeader := folderRows ++
        (if folder_names.isEmpty then []
         else
           [{ video_id := "folder_root"
              title := "📁 Root Files"
              subtitle := toString root_files.length ++ " videos"
              duration := 0
              progress := PyRat.ofInt 0
              file_path := none
              is_folder := true
              folder_name := some "."
              indent_level := 0 : VideoItem }])
      withHeader ++ root_files.enum.map fun idx_file =>
        { video_id := "video_" ++ toString (withHeader.length + idx_file.1)
          title := (pySplitext idx_file.2.2).1
          subtitle := "Root"
          duration := 0
          progress := (progress_data idx_file.2.1).getD (PyRat.ofInt 0)
          file_path := some idx_file.2.1
          is_folder := false
          folder_name := none
          indent_level := 0 : VideoItem }

/-! ### General lemmas -/

theorem splitListAux_no_sep (sep : List Char) :
    ∀ (fuel : Nat) (l acc : List Char), l.length ≤ fuel → containsList sep l = false →
      splitListAux sep fuel l acc = [acc.reverse ++ l] := by
  intro fuel
  induction fuel with
  | zero =>
    intro l acc hl _
    cases l with
    | nil => simp [splitListAux]
    | cons c rest => simp at hl
  | succ fuel ih =>
    intro l acc hl h
    cases l with
    | nil => simp [splitListAux]
    | cons c rest =>
      rw [containsList, Bool.or_eq_false_iff] at h
      simp only [List.length_cons] at hl
      rw [splitListAux, if_neg (by simp [h.1]), ih rest (c :: acc) (by omega) h.2]
      simp

theorem pySplit_eq_single_of_not_contains (s sep : String) (h : pyContains sep s = false) :
    pySplit s sep = [s] := by
  unfold pySplit splitList
  rw [splitListAux_no_sep sep.data s.data.length s.data [] (le_refl _) h]
  simp [stringMkData]

theorem findSome?_id_of_getD_isSome {α : Type} :
    ∀ (l : List (Option α)) (i : Nat), (l.getD i none).isSome →
      ∃ k, k ≤ i ∧ (l.getD k none).isSome ∧ l.findSome? id = l.getD k none := by
  intro l
  induction l with
  | nil => intro i h; simp [List.getD] at h
  | cons a t ih =>
    intro i h
    match a with
    | some x => exact ⟨0, Nat.zero_le _, by simp [List.getD], by simp [List.getD, List.findSome?]⟩
    | none =>
      match i with
      | 0 => simp [List.getD] at h
      | i + 1 =>
        obtain ⟨k, hk, hs, he⟩ := ih i (by simpa [List.getD] using h)
        exact ⟨k + 1, by omega, by simpa [List.getD] using hs,
               by simpa [List.getD, List.findSome?] using he⟩

/-! ### Claim theorems -/

/-- The filesystem of claim C2's scenario B: `movie.en.srt` and
`movie.srt` exist beside `movie.mp4`, nothing else. -/
def fsC2 : FS :=
  { pathExists := fun p => p == "/dir/movie.en.srt" || p == "/dir/movie.srt" || p == "/dir/movie.mp4"
    isdir := fun _ => false
    listdir := fun _ => [] }

/-- C2: the subtitle resolver is deterministic and rank-ordered: whenever
the pattern of rank `i+1` (index `i` in `patternList`) finds a candidate,
the resolver's result is the hit of some pattern of rank at most `i+1`;
in particular with both `movie.en.srt` (rank 1) and `movie.srt` (rank 4)
present beside `movie.mp4`, it returns `movie.en.srt`. -/
theorem subtitle_resolver_rank_order :
    (∀ (fs : FS) (video_path : String) (i : Nat),
        ((patternList fs video_path).getD i none).isSome →
        ∃ k, k ≤ i ∧ ((patternList fs video_path).getD k none).isSome ∧
          find_subtitle fs video_path = (patternList fs video_path).getD k none) ∧
      find_subtitle fsC2 "/dir/movie.mp4" = some "/dir/movie.en.srt" := by
  constructor
  · intro fs video_path i h
    exact findSome?_id_of_getD_isSome _ i h
  · decide

/-- C2 witness: the rank-order theorem applied to scenario B at rank 1. -/
theorem subtitle_resolver_rank_order_witness :
    ((patternList fsC2 "/dir/movie.mp4").getD 0 none).isSome ∧
      ∃ k, k ≤ 0 ∧ ((patternList fsC2 "/dir/movie.mp4").getD k none).isSome ∧
        find_subtitle fsC2 "/dir/movie.mp4" = (patternList fsC2 "/dir/movie.mp4").getD k none :=
  ⟨by decide, subtitle_resolver_rank_order.1 fsC2 "/dir/movie.mp4" 0 (by decide)⟩

/-- C3 counterexample: the SRT parser does not enforce
`start_ms <= end_ms`; a block with reversed timestamps parses to a cue
with `start_ms = 5000 ms > 1000 ms = end_ms`. -/
theorem srt_cue_start_le_end_refuted :
    ¬ ∀ c ∈ SRTParser.parse "1\n00:00:05,000 --> 00:00:01,000\nHello",
        c.start_ms ≤ c.end_ms := by
  decide

/-- C3 (amended): for every input, the cues produced by the SRT parser
are sorted ascending by `start_ms`; no relation between a cue's
`start_ms` and `end_ms` is guaranteed. -/
theorem srt_parse_sorted_by_start (content : String) :
    (SRTParser.parse content).Pairwise cueStartLe := by
  unfold SRTParser.parse
  split
  · simp
  · exact List.sorted_insertionSort cueStartLe _

/-- C6 counterexample: when the first `load_subtitles` call for a path
succeeds (returns `True`), the repeated call for the same path returns
`False`, not the first call's outcome. -/
def fsC6 : FS :=
  { pathExists := fun p => p == "/dir/movie.srt" || p == "/dir/movie.mp4"
    isdir := fun _ => false
    listdir := fun _ => [] }

/-- C6 counterexample theorem (see `fsC6`). -/
theorem load_subtitles_second_outcome_differs :
    (load_subtitles fsC6 (fun _ => true) none "/dir/movie.mp4").1 = true ∧
      (load_subtitles fsC6 (fun _ => true) (some "/dir/movie.mp4") "/dir/movie.mp4").1 = false ∧
      (load_subtitles fsC6 (fun _ => true) (some "/dir/movie.mp4") "/dir/movie.mp4").1 ≠
        (load_subtitles fsC6 (fun _ => true) none "/dir/movie.mp4").1 := by
  refine ⟨by decide, by decide, by decide⟩

/-- C6 (amended): a second subtitle-resolution request for the same video
path within the same load is a no-op: it leaves the cached-path state
unchanged and returns `False`, regardless of the first call's outcome. -/
theorem load_subtitles_repeat_noop (fs : FS) (set_subtitle_ok : String → Bool) (p : String) :
    load_subtitles fs set_subtitle_ok (some p) p = (false, some p) := by
  unfold load_subtitles
  by_cases h : p = ""
  · subst h; simp
  · simp [h]

/-- C7: the WebVTT display formatter escapes `<b>`/`</b>` along with all
other `<`/`>` and never restores the whitelisted tags (the restore loop
replaces each tag string by itself), so format-then-strip cannot return
the plain text; the SRT formatter's `{b}` conversion works as specified. -/
theorem vtt_format_leaves_tags_escaped :
    VTTParser.format_subtitle_text "<b>Hi</b>" = "&lt;b&gt;Hi&lt;/b&gt;" ∧
      SRTParser.format_subtitle_text "\x7bb\x7dHi\x7b/b\x7d" = "<b>Hi</b>" := by
  refine ⟨by decide, by decide⟩

/-- C10: `time_to_ms` returns `0` (no exception) for any token lacking
exactly three colon-separated fields, so the block
`"1\n5 --> 00:00:02,000\nHello"` still yields a cue, with start time 0. -/
theorem time_to_ms_wrong_arity_yields_zero :
    (∀ s : String, (pySplit (pyReplace s "," ".") ":").length ≠ 3 →
        SRTParser.time_to_ms s = some (PyRat.ofInt 0)) ∧
      SRTParser.parse "1\n5 --> 00:00:02,000\nHello" =
        [⟨PyRat.ofInt 0, ⟨2000000, 1000, by omega⟩, "Hello"⟩] := by
  constructor
  · intro s h
    unfold SRTParser.time_to_ms
    simp [h]
  · decide

/-- C10 witness: the token `"5"` has one field and converts to 0 ms. -/
theorem time_to_ms_wrong_arity_yields_zero_witness :
    (pySplit (pyReplace "5" "," ".") ":").length ≠ 3 ∧
      SRTParser.time_to_ms "5" = some (PyRat.ofInt 0) :=
  ⟨by decide, time_to_ms_wrong_arity_yields_zero.1 "5" (by decide)⟩

/-- The claim-C1 scenario: root contains `a.mp4` and a subfolder
`Lectures/` containing `b.mkv`, as the scan stores it. -/
def c1Scenario : FolderStructure :=
  .node [("Lectures", .node [] [("/root/Lectures/b.mkv", "b.mkv")])] [("/root/a.mp4", "a.mp4")]

/-- C1 counterexample: the derived rows are not
folder/`b`-at-indent-1/root-header/`a`; `build_folder_model` emits no row
at all for the file inside `Lectures` (the recursive row builder
`_add_subfolders_to_model` is defined in the source but never called). -/
theorem build_folder_model_scenario_refuted :
    (build_folder_model c1Scenario (fun _ => none)).map
        (fun r => (r.is_folder, r.indent_level)) ≠
      [(true, 0), (false, 1), (true, 0), (false, 0)] := by
  decide

def c1RowLectures : VideoItem :=
  ⟨"folder_Lectures", "📁 Lectures", "1 videos", 0, PyRat.ofInt 0, none, true, some "Lectures", 0⟩

def c1RowRootHeader : VideoItem :=
  ⟨"folder_root", "📁 Root Files", "1 videos", 0, PyRat.ofInt 0, none, true, some ".", 0⟩

def c1RowA : VideoItem :=
  ⟨"video_2", "a", "Root", 0, PyRat.ofInt 0, some "/root/a.mp4", false, none, 0⟩

/-- C1 (amended): the library rows are the top-level folder rows, then
the synthetic "Root Files" row, then the root's own files; files inside
folders produce no rows, and every row has indent level 0.  On the
scenario this yields exactly `Folder("Lectures",0)`,
`Folder("Root Files",0)`, `Video("a",0)`. -/
theorem build_folder_model_rows_flat :
    (∀ (fsr : FolderStructure) (pd : String → Option PyRat) (r : VideoItem),
        r ∈ build_folder_model fsr pd → r.indent_level = 0) ∧
      build_folder_model c1Scenario (fun _ => none) =
        [c1RowLectures, c1RowRootHeader, c1RowA] := by
  constructor
  · intro fsr pd r hr
    obtain ⟨subs, files⟩ := fsr
    simp only [build_folder_model] at hr
    by_cases hf : files.isEmpty
    · rw [if_pos hf] at hr
      obtain ⟨a, -, rfl⟩ := List.mem_map.1 hr
      rfl
    · rw [if_neg hf] at hr
      rcases List.mem_append.1 hr with h1 | h2
      · rcases List.mem_append.1 h1 with h3 | h4
        · obtain ⟨a, -, rfl⟩ := List.mem_map.1 h3
          rfl
        · by_cases hn : (sortStrings (subs.map Prod.fst)).isEmpty
          · rw [if_pos hn] at h4
            simp at h4
          · rw [if_neg hn] at h4
            obtain rfl := List.mem_singleton.1 h4
            rfl
      · obtain ⟨a, -, rfl⟩ := List.mem_map.1 h2
        rfl
  · decide

/-- C1 witness: the amended theorem applied to the scenario's folder row. -/
theorem build_folder_model_rows_flat_witness :
    c1RowLectures ∈ build_folder_model c1Scenario (fun _ => none) ∧
      c1RowLectures.indent_level = 0 :=
  ⟨by decide, build_folder_model_rows_flat.1 c1Scenario (fun _ => none) c1RowLectures (by decide)⟩

/-- The SRT content of claim C4's counterexample: one cue spanning
0–10 s whose text contains an ampersand. -/
def c4Content : String := "1\n00:00:00,000 --> 00:00:10,000\nA & B"

/-- C4 counterexample: at t = 5000 ms the single cue of `c4Content`
matches, but the lookup returns the display-formatted text
`"A &amp; B"`, not the cue's raw text `"A & B"`. -/
theorem cueAt_not_raw_text :
    (SRTParser.parse c4Content).map Cue.text = ["A & B"] ∧
      (∀ c ∈ SRTParser.parse c4Content,
        c.start_ms ≤ PyRat.ofInt 5000 ∧ PyRat.ofInt 5000 ≤ c.end_ms) ∧
      SRTParser.get_subtitle_at_time (SRTParser.parse c4Content) (PyRat.ofInt 5000) =
        "A &amp; B" ∧
      SRTParser.get_subtitle_at_time (SRTParser.parse c4Content) (PyRat.ofInt 5000) ≠
        "A & B" := by
  refine ⟨by decide, by decide, by decide, by decide⟩

/-- C4 (amended): for every cue list and timestamp, both lookup
functions return `""` when no cue's inclusive interval contains the
timestamp, and return the display-formatted text of the first cue (in
track order) whose interval contains it. -/
theorem cueAt_first_match_formatted (cues : List Cue) (t : PyRat) :
    ((∀ c ∈ cues, ¬(c.start_ms ≤ t ∧ t ≤ c.end_ms)) →
        SRTParser.get_subtitle_at_time cues t = "" ∧
          VTTParser.get_subtitle_at_time cues t = "") ∧
      (∀ c, cues.find? (fun c => decide (c.start_ms ≤ t ∧ t ≤ c.end_ms)) = some c →
        SRTParser.get_subtitle_at_time cues t = SRTParser.format_subtitle_text c.text ∧
          VTTParser.get_subtitle_at_time cues t = VTTParser.format_subtitle_text c.text) := by
  induction cues with
  | nil =>
    refine ⟨fun _ => ⟨rfl, rfl⟩, fun c hc => ?_⟩
    simp [List.find?] at hc
  | cons a rest ih =>
    constructor
    · intro h
      have ha : ¬(a.start_ms ≤ t ∧ t ≤ a.end_ms) := h a (List.mem_cons_self a rest)
      have hrest := ih.1 fun c hc => h c (List.mem_cons_of_mem a hc)
      simp only [SRTParser.get_subtitle_at_time, VTTParser.get_subtitle_at_time, if_neg ha]
      exact hrest
    · intro c hc
      by_cases ha : a.start_ms ≤ t ∧ t ≤ a.end_ms
      · have hfind : some a = some c := by
          rw [← hc, List.find?_cons_of_pos _ (by simpa using ha)]
        obtain rfl := Option.some.inj hfind
        exact ⟨by simp only [SRTParser.get_subtitle_at_time, if_pos ha],
               by simp only [VTTParser.get_subtitle_at_time, if_pos ha]⟩
      · have hc' : rest.find? (fun c => decide (c.start_ms ≤ t ∧ t ≤ c.end_ms)) = some c := by
          rw [← hc, List.find?_cons_of_neg _ (by simpa using ha)]
        simp only [SRTParser.get_subtitle_at_time, VTTParser.get_subtitle_at_time, if_neg ha]
        exact ih.2 c hc'

/-- C4 witness: the amended lookup theorem applied to a one-cue track at
a timestamp inside the cue, and to the same track at a timestamp outside
every cue. -/
theorem cueAt_first_match_formatted_witness :
    (SRTParser.get_subtitle_at_time [⟨PyRat.ofInt 0, PyRat.ofInt 10, "x"⟩] (PyRat.ofInt 5) =
        SRTParser.format_subtitle_text "x" ∧
      VTTParser.get_subtitle_at_time [⟨PyRat.ofInt 0, PyRat.ofInt 10, "x"⟩] (PyRat.ofInt 5) =
        VTTParser.format_subtitle_text "x") ∧
      (SRTParser.get_subtitle_at_time [⟨PyRat.ofInt 0, PyRat.ofInt 10, "x"⟩] (PyRat.ofInt 99) =
          "" ∧
        VTTParser.get_subtitle_at_time [⟨PyRat.ofInt 0, PyRat.ofInt 10, "x"⟩] (PyRat.ofInt 99) =
          "") :=
  ⟨(cueAt_first_match_formatted [⟨PyRat.ofInt 0, PyRat.ofInt 10, "x"⟩] (PyRat.ofInt 5)).2
      ⟨PyRat.ofInt 0, PyRat.ofInt 10, "x"⟩ (by decide),
    (cueAt_first_match_formatted [⟨PyRat.ofInt 0, PyRat.ofInt 10, "x"⟩] (PyRat.ofInt 99)).1
      (by decide)⟩

/-- C5: the validator returns `False` for every file whose reported size
is 0 bytes or exceeds 10 MB, whatever its path or content, so such a file
never reaches a parser. -/
theorem validate_rejects_empty_and_oversized (f : SubtitleFileInfo) (n : Nat)
    (hs : f.size = some n) (hn : n = 0 ∨ 10 * 1024 * 1024 < n) :
    validate_subtitle_file f = false := by
  unfold validate_subtitle_file
  by_cases hp : f.pathExists
  · simp only [hp, Bool.not_true, Bool.false_eq_true, if_false]
    by_cases he :
        ([".srt", ".vtt", ".sub", ".ssa", ".ass"].contains (pyLower (pySplitext f.path).2) : Bool)
    · simp only [he, Bool.not_true, Bool.false_eq_true, if_false, hs]
      rcases hn with h | h
      · simp [h]
      · rw [if_neg (by omega), if_pos (by omega)]
    · rw [if_pos (by simpa using he)]
  · simp [hp]

/-- C5 witness: a 0-byte `.srt` file is rejected. -/
theorem validate_rejects_empty_and_oversized_witness :
    (⟨"/m/movie.srt", true, some 0, ""⟩ : SubtitleFileInfo).size = some 0 ∧
      validate_subtitle_file ⟨"/m/movie.srt", true, some 0, ""⟩ = false :=
  ⟨rfl, validate_rejects_empty_and_oversized ⟨"/m/movie.srt", true, some 0, ""⟩ 0 rfl (Or.inl rfl)⟩

/-- The claim-C8 scenario tree: a hidden `.git` directory containing a
video, a visible `Sub` directory containing a video, and root files
`.hidden.mp4` (hidden but a video), `b.txt` and `.mp4` (no stem). -/
def c8Tree : DirTree :=
  .node [(".git", .node [] ["x.mp4"]), ("Sub", .node [] ["c.mkv"])]
    [".hidden.mp4", "b.txt", ".mp4"]

/-- C8: the walk drops a subdirectory exactly when its name starts with
a dot, keeps files purely by extension (a dot-prefixed video file is
included), and on the scenario tree collects `.hidden.mp4` and
`Sub/c.mkv` while skipping everything under `.git`. -/
theorem walk_skips_only_dot_directories :
    (∀ (root name : String) (sub : DirTree) (rest : List (String × DirTree))
        (files : List String), pyStartswith name "." = true →
        walkVideos root (.node ((name, sub) :: rest) files) =
          walkVideos root (.node rest files)) ∧
      (∀ (root : String) (subdirs : List (String × DirTree)) (files : List String)
          (f : String), f ∈ files → hasVideoExt f = true →
          pyJoin root f ∈ walkVideos root (.node subdirs files)) ∧
      walkVideos "/r" c8Tree = ["/r/.hidden.mp4", "/r/Sub/c.mkv"] := by
  refine ⟨?_, ?_, by decide⟩
  · intro root name sub rest files h
    simp [walkVideos, walkVideosList, h]
  · intro root subdirs files f hf hv
    exact List.mem_append_left _ (List.mem_map_of_mem _ (List.mem_filter.2 ⟨hf, hv⟩))

/-- C8 witness: the walk theorem applied to a hidden directory and to a
hidden video file. -/
theorem walk_skips_only_dot_directories_witness :
    (walkVideos "/r" (.node [(".git", .node [] ["x.mp4"])] []) =
        walkVideos "/r" (.node [] [])) ∧
      pyJoin "/r" ".hidden.mp4" ∈ walkVideos "/r" (.node [] [".hidden.mp4"]) :=
  ⟨walk_skips_only_dot_directories.1 "/r" ".git" (.node [] ["x.mp4"]) [] [] (by decide),
    walk_skips_only_dot_directories.2.1 "/r" [] [".hidden.mp4"] ".hidden.mp4"
      (List.mem_singleton.2 rfl) (by decide)⟩

/-- C9: a block whose second line does not contain the exact `' --> '`
separator (single space each side) produces no cue, and a full parse of a
block using `-->` without spaces yields no cues at all. -/
theorem srt_timing_needs_spaced_arrow :
    (∀ (block l0 timing t2 : String) (trest : List String),
        pySplit block "\n" = l0 :: timing :: t2 :: trest →
        pyContains " --> " timing = false →
        SRTParser.blockToCue? block = none) ∧
      SRTParser.parse "1\n00:00:01,000-->00:00:02,000\nHello" = [] := by
  refine ⟨?_, by decide⟩
  intro block l0 timing t2 trest hsplit hnc
  simp only [SRTParser.blockToCue?, hsplit,
    pySplit_eq_single_of_not_contains timing " --> " hnc]

/-- C9 witness: the spaced-arrow theorem applied to the block
`"1\nX-->Y\nZ"`. -/
theorem srt_timing_needs_spaced_arrow_witness :
    SRTParser.blockToCue? "1\nX-->Y\nZ" = none :=
  srt_timing_needs_spaced_arrow.1 "1\nX-->Y\nZ" "1" "X-->Y" "Z" [] (by decide) (by decide)

end Localdemy
